import Mathlib

/-!
Verification of the origin-resolution and route-acquisition pipeline of the
HelpCity desktop utility (src/main.py).

The embedding models the decision logic of the program directly from the
source.  Network effects are represented by explicit inputs: the routing
service answers with a value of `OsrmResponse`, the geocoding service is a
trace of per-call outcomes, the device-location requester and the IP client
are `Option` results supplied by an environment record.  Python `float`
values are modelled as rationals (no float rounding is relevant to any of
the properties below).
-/

namespace HelpCity

/-- Travel-mode to OSRM-profile mapping, from `perfil_osrm_para_query`
(main.py lines 300-313): `car` to `driving`, `foot` to `walking`,
`bike` to `cycling`, anything else falls through to `driving`. -/
def perfil_osrm_para_query (perfil : String) : String :=
  if perfil = "car" then "driving"
  else if perfil = "foot" then "walking"
  else if perfil = "bike" then "cycling"
  else "driving"

/-! ## OSRM routing-response model and `obter_rota_osrm` -/

/-- One entry of the `routes` array of an OSRM response, as read by
`obter_rota_osrm` (main.py lines 328-335).  `geometry = none` models a route
object whose `geometry`/`coordinates` lookup raises (the surrounding
`try` catches it).  `distance`/`duration` are `none` when the key is absent,
matching `route.get("distance", 0.0)` / `route.get("duration", 0.0)`.
Coordinates are wire-order `(lon, lat)` pairs. -/
structure OsrmRoute where
  geometry : Option (List (ℚ × ℚ))
  distance : Option ℚ
  duration : Option ℚ
deriving DecidableEq, Repr

/-- The routing-service answer as seen by `obter_rota_osrm` after
`urllib.request.urlopen` / `json.load`:
`parseError` is any request or JSON failure (exception caught by the
`try`), `noRoutesKey` is a JSON object without a `routes` key, and
`routes rs` is an object whose `routes` field holds the list `rs`. -/
inductive OsrmResponse where
  | parseError : OsrmResponse
  | noRoutesKey : OsrmResponse
  | routes : List OsrmRoute → OsrmResponse
deriving DecidableEq, Repr

/-- The dictionary `obter_rota_osrm` returns on success (the `raw` field,
which merely echoes the route object, is omitted). -/
structure RouteResult where
  poly : List (ℚ × ℚ)
  distance_m : ℚ
  duration_s : ℚ
deriving DecidableEq, Repr

/-- `obter_rota_osrm` (main.py lines 316-338), parametrised by the
routing-service answer.  Returns `none` when parsing raises, when `routes`
is missing or empty, or when the geometry lookup of the first route raises;
otherwise swaps every `(lon, lat)` wire pair into `(lat, lon)` and reads
`distance`/`duration` with a `0.0` default. -/
def obter_rota_osrm (resp : OsrmResponse) : Option RouteResult :=
  match resp with
  | .parseError => none
  | .noRoutesKey => none
  | .routes [] => none
  | .routes (route :: _) =>
      match route.geometry with
      | none => none
      | some coords =>
          some { poly := coords.map (fun p => (p.2, p.1))
               , distance_m := route.distance.getD 0
               , duration_s := route.duration.getD 0 }

/-! ## Map generation, `gerar_mapa_com_rota` -/

/-- The fixed artifact path `MAP_FILE` (main.py line 39). -/
def MAP_FILE : String := "map.html"

/-- The dictionary `gerar_mapa_com_rota` returns: the artifact path and the
distance/duration summary, absent when no route was obtained. -/
structure MapResult where
  file : String
  distance_km : Option ℚ
  duration_min : Option ℚ
deriving DecidableEq, Repr

/-- `gerar_mapa_com_rota` (main.py lines 344-414), parametrised by the
origin/destination coordinates, destination label and the routing-service
answer it passes to `obter_rota_osrm`.  The second component of the result
lists the files saved (`mapa.save(MAP_FILE)` runs in both branches).
When the route lookup yields `None` the map is still saved and the summary
fields are `None`; otherwise distance is reported in km and duration in
minutes. -/
def gerar_mapa_com_rota (orig_lat orig_lon dest_lat dest_lon : ℚ)
    (dest_label : String) (resp : OsrmResponse) :
    Option MapResult × List String :=
  match obter_rota_osrm resp with
  | none =>
      (some { file := MAP_FILE, distance_km := none, duration_min := none },
       [MAP_FILE])
  | some rota =>
      (some { file := MAP_FILE
            , distance_km := some (rota.distance_m / 1000)
            , duration_min := some (rota.duration_s / 60) },
       [MAP_FILE])

/-! ## Geocoding client, `geocode_endereco` -/

/-- Outcome of one call of `geolocator.geocode` inside `geocode_endereco`
(main.py lines 266-295): a location with coordinates, a `None` result,
a `GeocoderTimedOut`, a `GeocoderUnavailable`, or any other exception. -/
inductive GeocodeOutcome where
  | success : ℚ → ℚ → GeocodeOutcome
  | noResult : GeocodeOutcome
  | timedOut : GeocodeOutcome
  | unavailable : GeocodeOutcome
  | otherError : GeocodeOutcome
deriving DecidableEq, Repr

/-- The two exception classes `geocode_endereco` retries on. -/
def GeocodeOutcome.transient : GeocodeOutcome → Bool
  | .timedOut => true
  | .unavailable => true
  | _ => false

/-- What a run of `geocode_endereco` produced, together with the number of
`geolocator.geocode` calls issued and the number of `time.sleep(2)`
backoffs performed. -/
structure GeocodeRun where
  result : Option (ℚ × ℚ)
  calls : ℕ
  sleeps : ℕ
deriving DecidableEq, Repr

/-- The body of the `for tentativa in range(tentativas)` loop of
`geocode_endereco`, from iteration `tentativa` on, with the calls and
sleeps already performed.  `outcome i` is what the `(i+1)`-th geocoder
call does.  On a transient exception the loop sleeps and retries only
when `tentativa < tentativas - 1`, exactly as in the source; any other
exception or a `None` location returns `None` at once. -/
def geocode_loop (outcome : ℕ → GeocodeOutcome) (tentativas : ℕ)
    (tentativa calls sleeps : ℕ) : GeocodeRun :=
  if _h : tentativa < tentativas then
    match outcome tentativa with
    | .success lat lon => ⟨some (lat, lon), calls + 1, sleeps⟩
    | .noResult => ⟨none, calls + 1, sleeps⟩
    | .timedOut =>
        if tentativa < tentativas - 1 then
          geocode_loop outcome tentativas (tentativa + 1) (calls + 1) (sleeps + 1)
        else ⟨none, calls + 1, sleeps⟩
    | .unavailable =>
        if tentativa < tentativas - 1 then
          geocode_loop outcome tentativas (tentativa + 1) (calls + 1) (sleeps + 1)
        else ⟨none, calls + 1, sleeps⟩
    | .otherError => ⟨none, calls + 1, sleeps⟩
  else ⟨none, calls, sleeps⟩
termination_by tentativas - tentativa

/-- `geocode_endereco(endereco, tentativas)` (main.py lines 266-295),
parametrised by the per-call outcome trace of the geocoder. -/
def geocode_endereco (outcome : ℕ → GeocodeOutcome) (tentativas : ℕ := 3) :
    GeocodeRun :=
  geocode_loop outcome tentativas 0 0 0

/-! ## Origin resolution inside `buscar_e_mostrar` -/

/-- Environment of one button press: what the on-device requester
(`obter_gps_via_webview`), the IP client (`obter_localizacao_usuario_ip`)
and the geocoding client (`geocode_endereco`, abstracted to its result)
would answer. -/
structure Env where
  gps : Option (ℚ × ℚ)
  ip : Option (ℚ × ℚ)
  geocode : String → Option (ℚ × ℚ)

/-- One location attempt performed by the origin-determination block,
recorded in order. -/
inductive Attempt where
  | gpsAttempt : ℕ → Attempt
  | ipAttempt : Attempt
  | geocodeAttempt : String → Attempt
deriving DecidableEq, Repr

/-- How the origin-determination block ends: an origin coordinate, or one
of the three `messagebox.showerror` messages (represented symbolically):
`localizacaoIndisponivel` for the GPS/IP failure message,
`origemNaoGeocodificada` for the manual-origin geocoding failure, and
`semOrigem` for the no-origin-available message. -/
inductive OriginOutcome where
  | ok : ℚ × ℚ → OriginOutcome
  | err : String → OriginOutcome
deriving DecidableEq, Repr

/-- Error marker for `Não foi possível obter sua localização (GPS/IP).` -/
def localizacaoIndisponivel : String := "localizacao_indisponivel"

/-- Error marker for `Não foi possível geocodificar a origem.` -/
def origemNaoGeocodificada : String := "origem_nao_geocodificada"

/-- Error marker for `Forneça uma origem ou ative Usar minha localização.` -/
def semOrigem : String := "sem_origem"

/-- The origin-determination block of `buscar_e_mostrar`
(main.py lines 441-477), returning the outcome together with the ordered
trace of location attempts.  If the GPS checkbox is set, the device
requester is called with `timeout=10`; on failure the IP client is the
fallback; the manual origin text is only consulted on the unchecked
branch, where a non-empty (after `strip`) text is geocoded and an empty
one falls back to the IP client. -/
def determinar_origem (use_gps : Bool) (origin_entry : String) (env : Env) :
    OriginOutcome × List Attempt :=
  if use_gps then
    match env.gps with
    | some c => (.ok c, [.gpsAttempt 10])
    | none =>
        match env.ip with
        | some c => (.ok c, [.gpsAttempt 10, .ipAttempt])
        | none => (.err localizacaoIndisponivel, [.gpsAttempt 10, .ipAttempt])
  else
    let origin_text := origin_entry.trim
    if origin_text ≠ "" then
      match env.geocode origin_text with
      | some c => (.ok c, [.geocodeAttempt origin_text])
      | none => (.err origemNaoGeocodificada, [.geocodeAttempt origin_text])
    else
      match env.ip with
      | some c => (.ok c, [.ipAttempt])
      | none => (.err semOrigem, [.ipAttempt])

/-- Attempts that are device-location (GPS) attempts. -/
def Attempt.isGps : Attempt → Bool
  | .gpsAttempt _ => true
  | _ => false

/-- Attempts that are geocoding attempts. -/
def Attempt.isGeocode : Attempt → Bool
  | .geocodeAttempt _ => true
  | _ => false

/-! ## Helper lemmas about the geocoding loop -/

theorem geocode_loop_stop (outcome : ℕ → GeocodeOutcome) (n t c s : ℕ)
    (h : ¬ t < n) : geocode_loop outcome n t c s = ⟨none, c, s⟩ := by
  rw [geocode_loop]
  simp [h]

theorem geocode_loop_success (outcome : ℕ → GeocodeOutcome) (n t c s : ℕ)
    (lat lon : ℚ) (h : t < n) (ho : outcome t = .success lat lon) :
    geocode_loop outcome n t c s = ⟨some (lat, lon), c + 1, s⟩ := by
  rw [geocode_loop]
  simp [h, ho]

theorem geocode_loop_fail_now (outcome : ℕ → GeocodeOutcome) (n t c s : ℕ)
    (h : t < n) (ho : outcome t = .noResult ∨ outcome t = .otherError) :
    geocode_loop outcome n t c s = ⟨none, c + 1, s⟩ := by
  rw [geocode_loop]
  rcases ho with ho | ho <;> simp [h, ho]

theorem geocode_loop_transient_step (outcome : ℕ → GeocodeOutcome)
    (n t c s : ℕ) (h : t < n) (h1 : t < n - 1)
    (ho : (outcome t).transient = true) :
    geocode_loop outcome n t c s =
      geocode_loop outcome n (t + 1) (c + 1) (s + 1) := by
  rw [geocode_loop]
  cases hout : outcome t <;>
    simp [GeocodeOutcome.transient, hout] at ho ⊢ <;>
    simp [h, h1]

theorem geocode_loop_transient_last (outcome : ℕ → GeocodeOutcome)
    (n t c s : ℕ) (h : t < n) (h1 : ¬ t < n - 1)
    (ho : (outcome t).transient = true) :
    geocode_loop outcome n t c s = ⟨none, c + 1, s⟩ := by
  rw [geocode_loop]
  cases hout : outcome t <;>
    simp [GeocodeOutcome.transient, hout] at ho ⊢ <;>
    simp [h, h1]

/-- Skipping `k` leading transient outcomes advances the loop by `k`
iterations, each adding one call and one sleep. -/
theorem geocode_loop_skip (outcome : ℕ → GeocodeOutcome) (n : ℕ) :
    ∀ k t c s : ℕ, t + k < n →
      (∀ j, j < k → (outcome (t + j)).transient = true) →
      geocode_loop outcome n t c s =
        geocode_loop outcome n (t + k) (c + k) (s + k) := by
  intro k
  induction k with
  | zero => intro t c s _ _; simp
  | succ m ih =>
      intro t c s hlt htr
      have ht : t < n := by omega
      have h1 : t < n - 1 := by omega
      have htr0 : (outcome t).transient = true := by
        have := htr 0 (by omega)
        simpa using this
      rw [geocode_loop_transient_step outcome n t c s ht h1 htr0]
      have hrest : ∀ j, j < m → (outcome (t + 1 + j)).transient = true := by
        intro j hj
        have := htr (j + 1) (by omega)
        have e : t + (j + 1) = t + 1 + j := by omega
        rwa [e] at this
      rw [ih (t + 1) (c + 1) (s + 1) (by omega) hrest]
      have e1 : t + 1 + m = t + (m + 1) := by omega
      have e2 : c + 1 + m = c + (m + 1) := by omega
      have e3 : s + 1 + m = s + (m + 1) := by omega
      rw [e1, e2, e3]

/-! ## Claim theorems -/

/-- C6 counterexample: the legacy travel mode `bus` is mapped to the
default profile `driving`, not to the walking profile claimed by the
spec (the test suite of the repository asserts exactly this behaviour). -/
theorem perfil_bus_cex :
    perfil_osrm_para_query "bus" = "driving" ∧
    perfil_osrm_para_query "bus" ≠ "walking" := by
  exact ⟨rfl, by decide⟩

/-- C6 amended: `perfil_osrm_para_query` has no special case for `bus`;
the legacy value `bus` falls through to the fallback branch and is mapped
to `driving`, and no user-visible notice accompanies it. -/
theorem perfil_bus_amended : perfil_osrm_para_query "bus" = "driving" := rfl

/-- C7 counterexample: the mapping is not idempotent: on input `foot` it
yields `walking`, but applied again to that output it yields `driving`. -/
theorem perfil_idempotente_cex :
    perfil_osrm_para_query (perfil_osrm_para_query "foot") ≠
      perfil_osrm_para_query "foot" := by decide

/-- The image of the profile mapping. -/
theorem perfil_range (s : String) :
    perfil_osrm_para_query s = "driving" ∨
    perfil_osrm_para_query s = "walking" ∨
    perfil_osrm_para_query s = "cycling" := by
  unfold perfil_osrm_para_query
  split_ifs <;> simp

/-- C7 amended: the mapping is a total function with `car` to `driving`,
`foot` to `walking`, `bike` to `cycling`, and the same default `driving`
for every input outside those three; it is not idempotent — every value
of its image is itself unrecognized, so a second application always
yields `driving`. -/
theorem perfil_total_default (s : String) :
    perfil_osrm_para_query "car" = "driving" ∧
    perfil_osrm_para_query "foot" = "walking" ∧
    perfil_osrm_para_query "bike" = "cycling" ∧
    (s ≠ "car" → s ≠ "foot" → s ≠ "bike" →
      perfil_osrm_para_query s = "driving") ∧
    perfil_osrm_para_query (perfil_osrm_para_query s) = "driving" := by
  refine ⟨rfl, rfl, rfl, ?_, ?_⟩
  · intro h1 h2 h3
    unfold perfil_osrm_para_query
    simp [h1, h2, h3]
  · rcases perfil_range s with h | h | h <;> rw [h] <;> rfl

/-- Witness for C7 at the concrete input `bus`. -/
theorem perfil_total_default_witness :
    perfil_osrm_para_query "bus" = "driving" ∧
    perfil_osrm_para_query (perfil_osrm_para_query "bus") = "driving" :=
  ⟨(perfil_total_default "bus").2.2.2.1 (by decide) (by decide) (by decide),
   (perfil_total_default "bus").2.2.2.2⟩

/-- C3: for a routing response whose first route carries geometry
coordinates `coords` (wire order, longitude first), the produced polyline
is exactly `coords` with each pair swapped to latitude-first order,
preserving the number of points and their order. -/
theorem rota_roundtrip (route : OsrmRoute) (rest : List OsrmRoute)
    (coords : List (ℚ × ℚ)) (hg : route.geometry = some coords) :
    ∃ r, obter_rota_osrm (.routes (route :: rest)) = some r ∧
      r.poly = coords.map (fun p => (p.2, p.1)) ∧
      r.poly.length = coords.length := by
  refine ⟨⟨coords.map (fun p => (p.2, p.1)), route.distance.getD 0,
    route.duration.getD 0⟩, ?_, rfl, by simp⟩
  simp [obter_rota_osrm, hg]

/-- Witness for C3 on a concrete two-point geometry. -/
theorem rota_roundtrip_witness :
    ∃ r, obter_rota_osrm
        (.routes [⟨some [((1 : ℚ), 2), (3, 4)], some 5, some 6⟩]) = some r ∧
      r.poly = [((2 : ℚ), 1), (4, 3)] ∧ r.poly.length = 2 := by
  obtain ⟨r, h1, h2, h3⟩ :=
    rota_roundtrip ⟨some [(1, 2), (3, 4)], some 5, some 6⟩ [] [(1, 2), (3, 4)] rfl
  exact ⟨r, h1, by rw [h2]; rfl, by rw [h3]; rfl⟩

/-- C4: every malformed or empty routing response — a parse failure, a
JSON object without a `routes` key, or one whose `routes` list is empty —
makes `obter_rota_osrm` return `none`; the embedding is a total function,
so no exception reaches the caller. -/
theorem rota_malformada_none (resp : OsrmResponse)
    (h : resp = .parseError ∨ resp = .noRoutesKey ∨ resp = .routes []) :
    obter_rota_osrm resp = none := by
  rcases h with h | h | h <;> subst h <;> rfl

/-- Witness for C4 at a parse failure. -/
theorem rota_malformada_none_witness : obter_rota_osrm .parseError = none :=
  rota_malformada_none .parseError (Or.inl rfl)

/-- C5: when the route lookup yields no route, `gerar_mapa_com_rota`
still saves the map artifact file and returns a result whose distance
and duration fields are absent (`none`), for every origin/destination
pair and destination label. -/
theorem mapa_degrada_sem_rota (olat olon dlat dlon : ℚ) (label : String)
    (resp : OsrmResponse) (h : obter_rota_osrm resp = none) :
    gerar_mapa_com_rota olat olon dlat dlon label resp =
      (some ⟨MAP_FILE, none, none⟩, [MAP_FILE]) := by
  simp [gerar_mapa_com_rota, h]

/-- Witness for C5 at an empty `routes` list. -/
theorem mapa_degrada_sem_rota_witness :
    gerar_mapa_com_rota 0 0 0 0 "dest" (.routes []) =
      (some ⟨MAP_FILE, none, none⟩, [MAP_FILE]) :=
  mapa_degrada_sem_rota 0 0 0 0 "dest" (.routes []) rfl

/-- C8 counterexample: a response whose first route has an empty geometry
and a negative distance annotation is accepted by `obter_rota_osrm`,
producing a result with an empty polyline and a negative distance —
refuting the claimed invariant that every accepted result has polyline
length at least 1 and nonnegative distance. -/
theorem rota_invariante_cex :
    obter_rota_osrm (.routes [⟨some [], some (-5), some 6⟩]) =
      some ⟨[], -5, 6⟩ ∧
    ¬ (1 ≤ (List.length ([] : List (ℚ × ℚ)))) ∧
    ¬ ((0 : ℚ) ≤ -5) := by
  refine ⟨rfl, by decide, by norm_num⟩

/-- C8 amended: `obter_rota_osrm` performs no validation of its own; the
well-formedness invariant (polyline length at least 1, distance and
duration nonnegative) holds for an accepted response exactly when the
first route itself supplies it: non-empty geometry and nonnegative
distance/duration after the `0.0` default. -/
theorem rota_invariante_cond (route : OsrmRoute) (rest : List OsrmRoute)
    (coords : List (ℚ × ℚ)) (hg : route.geometry = some coords)
    (hne : coords ≠ []) (hd : 0 ≤ route.distance.getD 0)
    (hu : 0 ≤ route.duration.getD 0) :
    ∃ r, obter_rota_osrm (.routes (route :: rest)) = some r ∧
      1 ≤ r.poly.length ∧ 0 ≤ r.distance_m ∧ 0 ≤ r.duration_s := by
  refine ⟨⟨coords.map (fun p => (p.2, p.1)), route.distance.getD 0,
    route.duration.getD 0⟩, ?_, ?_, hd, hu⟩
  · simp [obter_rota_osrm, hg]
  · simp only [List.length_map]
    exact List.length_pos.mpr hne

/-- Witness for the amended C8 on a concrete one-point route. -/
theorem rota_invariante_cond_witness :
    ∃ r, obter_rota_osrm (.routes [⟨some [((1 : ℚ), 2)], some 5, some 6⟩]) =
        some r ∧ 1 ≤ r.poly.length ∧ 0 ≤ r.distance_m ∧ 0 ≤ r.duration_s :=
  rota_invariante_cond ⟨some [(1, 2)], some 5, some 6⟩ [] [(1, 2)] rfl
    (by simp) (by norm_num [Option.getD]) (by norm_num [Option.getD])

/-- C10: a first route that carries geometry but lacks the `distance` or
the `duration` annotation still yields a result; the missing annotation
is reported as exactly `0.0` rather than `none` or an exception. -/
theorem rota_anotacao_padrao (route : OsrmRoute) (rest : List OsrmRoute)
    (coords : List (ℚ × ℚ)) (hg : route.geometry = some coords) :
    (route.distance = none →
      ∃ r, obter_rota_osrm (.routes (route :: rest)) = some r ∧
        r.distance_m = 0) ∧
    (route.duration = none →
      ∃ r, obter_rota_osrm (.routes (route :: rest)) = some r ∧
        r.duration_s = 0) := by
  constructor
  · intro hd
    refine ⟨⟨coords.map (fun p => (p.2, p.1)), route.distance.getD 0,
      route.duration.getD 0⟩, ?_, by simp [hd]⟩
    simp [obter_rota_osrm, hg]
  · intro hu
    refine ⟨⟨coords.map (fun p => (p.2, p.1)), route.distance.getD 0,
      route.duration.getD 0⟩, ?_, by simp [hu]⟩
    simp [obter_rota_osrm, hg]

/-- Witness for C10: both annotations missing default to zero. -/
theorem rota_anotacao_padrao_witness :
    ∃ r, obter_rota_osrm (.routes [⟨some [((1 : ℚ), 2)], none, none⟩]) =
        some r ∧ r.distance_m = 0 :=
  (rota_anotacao_padrao ⟨some [(1, 2)], none, none⟩ [] [(1, 2)] rfl).1 rfl

/-- C1: with the GPS checkbox set, the origin-determination block starts
with exactly one device-location attempt, carrying the 10-second timeout;
a device fix becomes the origin with the IP client never consulted; when
the device attempt fails, the IP client is attempted exactly once, after
it, and its fix becomes the origin; when both fail the block ends with
the location-unavailable error and no origin. -/
theorem origem_prioridade (env : Env) (t : String) :
    ((determinar_origem true t env).2.head? = some (.gpsAttempt 10)) ∧
    ((determinar_origem true t env).2.countP (fun a => a.isGps) = 1) ∧
    (∀ c, env.gps = some c →
      determinar_origem true t env = (.ok c, [.gpsAttempt 10])) ∧
    (env.gps = none →
      (determinar_origem true t env).2 = [.gpsAttempt 10, .ipAttempt] ∧
      (∀ c, env.ip = some c → (determinar_origem true t env).1 = .ok c) ∧
      (env.ip = none →
        (determinar_origem true t env).1 = .err localizacaoIndisponivel)) := by
  rcases hg : env.gps with _ | c <;> rcases hi : env.ip with _ | d <;>
    simp [determinar_origem, hg, hi, Attempt.isGps, List.countP,
      List.countP.go]

/-- Witness for C1: device fails, IP succeeds, on a concrete
environment. -/
theorem origem_prioridade_witness :
    (determinar_origem true "rua"
      (⟨none, some (7, 8), fun _ => none⟩ : Env)).2 =
        [.gpsAttempt 10, .ipAttempt] ∧
    (determinar_origem true "rua"
      (⟨none, some (7, 8), fun _ => none⟩ : Env)).1 = .ok (7, 8) := by
  obtain ⟨-, -, -, h4⟩ :=
    origem_prioridade (⟨none, some (7, 8), fun _ => none⟩ : Env) "rua"
  obtain ⟨htrace, hip, -⟩ := h4 rfl
  exact ⟨htrace, hip (7, 8) rfl⟩

/-- C9: with the GPS checkbox set, two runs that differ only in the
manual origin text (and possibly in what the geocoder would answer)
produce the same outcome and the same attempt trace, and that trace
contains no geocoding attempt — the manual text is never read on this
path. -/
theorem origem_noninterferencia (env env2 : Env) (t t2 : String)
    (hg : env.gps = env2.gps) (hi : env.ip = env2.ip) :
    determinar_origem true t env = determinar_origem true t2 env2 ∧
    ∀ a ∈ (determinar_origem true t env).2, a.isGeocode = false := by
  have hg2 : env2.gps = env.gps := hg.symm
  have hi2 : env2.ip = env.ip := hi.symm
  rcases hgv : env.gps with _ | c <;> rcases hiv : env.ip with _ | d <;>
    simp [determinar_origem, hgv, hiv, hg2, hi2, Attempt.isGeocode]

/-- Witness for C9: empty versus non-empty manual origin text under the
GPS flag, on a concrete environment. -/
theorem origem_noninterferencia_witness :
    determinar_origem true "" (⟨none, some (7, 8), fun _ => none⟩ : Env) =
      determinar_origem true "abc"
        (⟨none, some (7, 8), fun _ => none⟩ : Env) :=
  (origem_noninterferencia (⟨none, some (7, 8), fun _ => none⟩ : Env)
    (⟨none, some (7, 8), fun _ => none⟩ : Env) "" "abc" rfl rfl).1

/-- C2: the retry policy of `geocode_endereco` for `n ≥ 1` attempts:
if every call raises a transient failure, the run returns `none` after
exactly `n` geocoder calls and `n - 1` backoff sleeps; if the first
`k < n` calls are transient and call `k + 1` succeeds, the run returns
that coordinate after `k + 1` calls and exactly `k` sleeps; and if after
`k < n` transient calls the next call raises a non-transient exception
or returns an empty result, the run returns `none` at once, with
`k + 1` calls and no further sleep. -/
theorem geocode_retry_policy (outcome : ℕ → GeocodeOutcome) (n : ℕ)
    (hn : 1 ≤ n) :
    ((∀ j, j < n → (outcome j).transient = true) →
      geocode_endereco outcome n = ⟨none, n, n - 1⟩) ∧
    (∀ k lat lon, k < n → (∀ j, j < k → (outcome j).transient = true) →
      outcome k = .success lat lon →
      geocode_endereco outcome n = ⟨some (lat, lon), k + 1, k⟩) ∧
    (∀ k, k < n → (∀ j, j < k → (outcome j).transient = true) →
      (outcome k = .noResult ∨ outcome k = .otherError) →
      geocode_endereco outcome n = ⟨none, k + 1, k⟩) := by
  refine ⟨?_, ?_, ?_⟩
  · intro htr
    unfold geocode_endereco
    rw [geocode_loop_skip outcome n (n - 1) 0 0 0 (by omega)
      (fun j hj => by simpa using htr j (by omega))]
    simp only [Nat.zero_add]
    rw [geocode_loop_transient_last outcome n (n - 1) (n - 1) (n - 1)
      (by omega) (by omega) (htr (n - 1) (by omega))]
    have e : n - 1 + 1 = n := by omega
    rw [e]
  · intro k lat lon hk htr hsucc
    unfold geocode_endereco
    rw [geocode_loop_skip outcome n k 0 0 0 (by omega)
      (fun j hj => by simpa using htr j hj)]
    simp only [Nat.zero_add]
    exact geocode_loop_success outcome n k k k lat lon hk hsucc
  · intro k hk htr hfail
    unfold geocode_endereco
    rw [geocode_loop_skip outcome n k 0 0 0 (by omega)
      (fun j hj => by simpa using htr j hj)]
    simp only [Nat.zero_add]
    exact geocode_loop_fail_now outcome n k k k hk hfail

/-- Witness for C2: an always-timing-out geocoder with the default three
attempts makes three calls and two sleeps and yields no coordinate. -/
theorem geocode_retry_policy_witness :
    geocode_endereco (fun _ => GeocodeOutcome.timedOut) 3 = ⟨none, 3, 2⟩ :=
  (geocode_retry_policy (fun _ => GeocodeOutcome.timedOut) 3
    (by norm_num)).1 (fun j hj => rfl)

end HelpCity
